import Mathlib

/-!
Verification of `upload-files-to-drive` (src/app.py): a shallow embedding of
the token generator, credential materializer and the two upload functions,
with theorems settling the spec's claims.

External collaborators (the OAuth consent flow, the token-refresh endpoint,
and the Drive create-file endpoint) are modelled as explicit parameters:
a `FlowResult` for the tokens the interactive consent flow produces, a
`RefreshResponse` for the token the refresh endpoint issues, and a
`DriveService` mapping a create-file request to the identifier field of the
service's response.
-/

namespace UploadFilesToDrive

/-- The `web` section of the client configuration built by `generate_tokens`
(src/app.py lines 26-37). -/
structure ClientConfigWeb where
  client_id : String
  client_secret : String
  redirect_uris : List String
  auth_uri : String
  token_uri : String
deriving Repr, DecidableEq

/-- The OAuth flow configuration passed to `InstalledAppFlow.from_client_config`. -/
structure FlowConfig where
  web : ClientConfigWeb
  scopes : List String
deriving Repr, DecidableEq

/-- Outcome of the external interactive consent flow (`flow.run_local_server`
followed by reading `flow.credentials`): the tokens the identity provider
issued. -/
structure FlowResult where
  token : String
  refresh_token : String
deriving Repr, DecidableEq

/-- The authorization-flow configuration that `generate_tokens` builds
(src/app.py lines 26-37): fixed redirect URI, auth URI, token URI and the
single Drive scope around the supplied client identity. -/
def generate_tokens_config (client_id client_secret : String) : FlowConfig :=
  { web :=
      { client_id := client_id
        client_secret := client_secret
        redirect_uris := ["urn:ietf:wg:oauth:2.0:oob"]
        auth_uri := "https://accounts.google.com/o/oauth2/auth"
        token_uri := "https://accounts.google.com/o/oauth2/token" }
    scopes := ["https://www.googleapis.com/auth/drive"] }

/-- `generate_tokens` (src/app.py lines 10-43): runs the consent flow for the
configuration built above and returns the access and refresh tokens the flow
produced. -/
def generate_tokens (client_id client_secret : String) (flow : FlowResult) :
    String × String :=
  let _config := generate_tokens_config client_id client_secret
  (flow.token, flow.refresh_token)

/-- The token dictionary passed around the program (the `token_auth` dict of
`get_token_auth`, src/app.py lines 182-189, and the `token` argument of the
other functions).  The `token` and `refresh_token` entries are optional
because a caller-supplied dictionary may carry no value for them (the SDK
reads them with `dict.get`). -/
structure TokenAuth where
  token : Option String
  refresh_token : Option String
  token_uri : String
  client_id : String
  client_secret : String
  scopes : List String
deriving Repr, DecidableEq

/-- `get_token_auth` (src/app.py lines 162-191): runs `generate_tokens` and
packages the result with the fixed refresh endpoint, the client identity and
the fixed scope list. -/
def get_token_auth (client_id client_secret : String) (flow : FlowResult) :
    TokenAuth :=
  let tokens := generate_tokens client_id client_secret flow
  { token := some tokens.1
    refresh_token := some tokens.2
    token_uri := "https://oauth2.googleapis.com/token"
    client_id := client_id
    client_secret := client_secret
    scopes := ["https://www.googleapis.com/auth/drive"] }

/-- The in-memory credential handle (`google.oauth2.credentials.Credentials`).
Modelled from the spec: the SDK is an external collaborator; per the spec a
handle wraps the token record plus a validity flag derived from an expiry
timestamp.  `expired` records whether the handle's expiry lies in the past
relative to the ambient clock. -/
structure Credentials where
  token : Option String
  refresh_token : Option String
  token_uri : String
  client_id : String
  client_secret : String
  scopes : List String
  expired : Bool
deriving Repr, DecidableEq

/-- SDK validity flag: a handle is valid when it holds an access token and
the token is not expired. -/
def Credentials.valid (c : Credentials) : Bool :=
  c.token.isSome && !c.expired

/-- `Credentials.from_authorized_user_info`: builds a handle carrying the
dictionary's entries; whether the handle is expired depends on the ambient
clock, passed as `expired`. -/
def Credentials.from_authorized_user_info (info : TokenAuth) (expired : Bool) :
    Credentials :=
  { token := info.token
    refresh_token := info.refresh_token
    token_uri := info.token_uri
    client_id := info.client_id
    client_secret := info.client_secret
    scopes := info.scopes
    expired := expired }

/-- Outcome of the external token-refresh endpoint: the fresh access token it
issues. -/
structure RefreshResponse where
  access_token : String
deriving Repr, DecidableEq

/-- `creds.refresh(Request())`: replaces the access token with the one the
refresh endpoint issued and clears the expired flag; every other field of the
handle is kept. -/
def Credentials.refresh (c : Credentials) (resp : RefreshResponse) : Credentials :=
  { c with token := some resp.access_token, expired := false }

/-- Network events observable during credential materialization. -/
inductive AuthEvent where
  | refreshCall
deriving Repr, DecidableEq

/-- Python truthiness of an optional string field: a missing value and the
empty string are falsy, every other string is truthy. -/
def truthy (o : Option String) : Bool :=
  o.getD "" != ""

/-- `authenticate_with_token` (src/app.py lines 46-68): builds a handle from
the dictionary; when the handle is invalid, expired and the refresh-token
field is truthy (`if creds.expired and creds.refresh_token:` — present and
non-empty), performs the refresh network call; otherwise returns the handle
as built.  The second component records the network calls performed. -/
def authenticate_with_token (token : TokenAuth) (expired : Bool)
    (resp : RefreshResponse) : Credentials × List AuthEvent :=
  let creds := Credentials.from_authorized_user_info token expired
  if !creds.valid then
    if creds.expired && truthy creds.refresh_token then
      (creds.refresh resp, [AuthEvent.refreshCall])
    else
      (creds, [])
  else
    (creds, [])

/-- `os.path.basename` on POSIX: the part of the path after the final slash. -/
def basename (p : String) : String :=
  (p.splitOn "/").getLastD ""

/-- The file metadata dictionary sent as the request body (`file_metadata`);
`mimeType` is present only in the spreadsheet-conversion upload. -/
structure FileMetadata where
  name : String
  mimeType : Option String
  parents : List String
deriving Repr, DecidableEq

/-- `MediaFileUpload(file_path, mimetype=..., resumable=...)`; the raw upload
passes no `mimetype`. -/
structure MediaFileUpload where
  file_path : String
  mimetype : Option String
  resumable : Bool
deriving Repr, DecidableEq

/-- The `service.files().create(...)` request: metadata body, media body and
the response-field selector. -/
structure CreateRequest where
  body : FileMetadata
  media_body : MediaFileUpload
  fields : String
deriving Repr, DecidableEq

/-- The external Drive service, as the function from a create-file request to
the `id` field of its response (`none` when the response lacks the field). -/
structure DriveService where
  create_response_id : CreateRequest → Option String

/-- Events observable during an upload call. -/
inductive UploadEvent where
  | authenticate (token : TokenAuth)
  | createFile (creds : Credentials) (req : CreateRequest)
deriving Repr, DecidableEq

/-- The create-file request built by `upload_file_to_drive`
(src/app.py lines 94-109): metadata `{name, parents}`, no `mimeType`, a
resumable media body with no declared MIME type, and `fields="id"`. -/
def upload_file_to_drive_request (file_path folder_id : String) : CreateRequest :=
  { body :=
      { name := basename file_path
        mimeType := none
        parents := [folder_id] }
    media_body :=
      { file_path := file_path
        mimetype := none
        resumable := true }
    fields := "id" }

/-- `upload_file_to_drive` (src/app.py lines 71-113): materializes
credentials from the token dictionary, issues the create-file request and
returns the `id` field of the response.  The second component is the trace
of observable events in order. -/
def upload_file_to_drive (file_path : String) (token : TokenAuth)
    (folder_id : String) (expired : Bool) (resp : RefreshResponse)
    (service : DriveService) : Option String × List UploadEvent :=
  let creds := (authenticate_with_token token expired resp).1
  let req := upload_file_to_drive_request file_path folder_id
  let file_id := service.create_response_id req
  (file_id, [UploadEvent.authenticate token, UploadEvent.createFile creds req])

/-- The create-file request built by `upload_file_to_drive_as_google_sheet`
(src/app.py lines 139-155): metadata `{name, mimeType, parents}` with the
native spreadsheet MIME type, a resumable media body declaring the xlsx
interchange MIME type, and `fields="id"`. -/
def upload_file_to_drive_as_google_sheet_request (file_path folder_id : String) :
    CreateRequest :=
  { body :=
      { name := basename file_path
        mimeType := some "application/vnd.google-apps.spreadsheet"
        parents := [folder_id] }
    media_body :=
      { file_path := file_path
        mimetype := some "application/vnd.openxmlformats-officedocument.spreadsheetml.sheet"
        resumable := true }
    fields := "id" }

/-- `upload_file_to_drive_as_google_sheet` (src/app.py lines 116-159): same
shape as the raw upload but with the conversion request above. -/
def upload_file_to_drive_as_google_sheet (file_path : String) (token : TokenAuth)
    (folder_id : String) (expired : Bool) (resp : RefreshResponse)
    (service : DriveService) : Option String × List UploadEvent :=
  let creds := (authenticate_with_token token expired resp).1
  let req := upload_file_to_drive_as_google_sheet_request file_path folder_id
  let file_id := service.create_response_id req
  (file_id, [UploadEvent.authenticate token, UploadEvent.createFile creds req])

/-- `true` when every create-file event in the trace is preceded by an
authenticate event; `seen` records whether an authenticate event has already
occurred. -/
def create_preceded_by_auth (seen : Bool) : List UploadEvent → Bool
  | [] => true
  | UploadEvent.authenticate _ :: rest => create_preceded_by_auth true rest
  | UploadEvent.createFile _ _ :: rest => seen && create_preceded_by_auth seen rest

/-- C1: for every file path, token record and folder id, the
NATIVE_SPREADSHEET upload issues a create-file request whose metadata
mimeType is the provider's native spreadsheet type and whose media body
declares the xlsx interchange MIME type, regardless of the file's
extension. -/
theorem C1_native_sheet_mime (file_path : String) (token : TokenAuth)
    (folder_id : String) (expired : Bool) (resp : RefreshResponse)
    (service : DriveService) :
    (upload_file_to_drive_as_google_sheet file_path token folder_id expired
        resp service).2
      = [UploadEvent.authenticate token,
         UploadEvent.createFile (authenticate_with_token token expired resp).1
           (upload_file_to_drive_as_google_sheet_request file_path folder_id)] ∧
    (upload_file_to_drive_as_google_sheet_request file_path folder_id).body.mimeType
      = some "application/vnd.google-apps.spreadsheet" ∧
    (upload_file_to_drive_as_google_sheet_request file_path folder_id).media_body.mimetype
      = some "application/vnd.openxmlformats-officedocument.spreadsheetml.sheet" :=
  ⟨rfl, rfl, rfl⟩

/-- C2 counterexample: the token endpoint embedded in the authorization-flow
configuration by `generate_tokens` is not the token endpoint stored in the
token record returned by `get_token_auth`
("https://accounts.google.com/o/oauth2/token" versus
"https://oauth2.googleapis.com/token"). -/
theorem C2_counterexample :
    ¬ ((generate_tokens_config "cid" "cs").web.token_uri
        = (get_token_auth "cid" "cs" { token := "at", refresh_token := "rt" }).token_uri) := by
  decide

/-- C2 amended: each function embeds a fixed token endpoint independent of
the client identity — `generate_tokens` always uses
"https://accounts.google.com/o/oauth2/token" in the flow configuration and
`get_token_auth` always stores "https://oauth2.googleapis.com/token" in the
token record — but the two constants differ. -/
theorem C2_fixed_endpoints (cid cs cid' cs' : String) (flow flow' : FlowResult) :
    (generate_tokens_config cid cs).web.token_uri
      = "https://accounts.google.com/o/oauth2/token" ∧
    (get_token_auth cid cs flow).token_uri
      = "https://oauth2.googleapis.com/token" ∧
    (generate_tokens_config cid cs).web.token_uri
      = (generate_tokens_config cid' cs').web.token_uri ∧
    (get_token_auth cid cs flow).token_uri
      = (get_token_auth cid' cs' flow').token_uri :=
  ⟨rfl, rfl, rfl, rfl⟩

/-- C3: when the handle built from the token record is valid,
`authenticate_with_token` performs no refresh network call and returns a
handle wrapping the same access token as the input record. -/
theorem C3_valid_no_refresh (token : TokenAuth) (expired : Bool)
    (resp : RefreshResponse)
    (h : (Credentials.from_authorized_user_info token expired).valid = true) :
    (authenticate_with_token token expired resp).2 = [] ∧
    (authenticate_with_token token expired resp).1.token = token.token := by
  have h' : (token.token.isSome && !expired) = true := h
  simp [authenticate_with_token, Credentials.from_authorized_user_info,
        Credentials.valid, h']

theorem C3_valid_no_refresh_witness :
    (Credentials.from_authorized_user_info
        ⟨some "t", some "r", "u", "i", "s", ["sc"]⟩ false).valid = true ∧
    ((authenticate_with_token ⟨some "t", some "r", "u", "i", "s", ["sc"]⟩
        false ⟨"n"⟩).2 = [] ∧
     (authenticate_with_token ⟨some "t", some "r", "u", "i", "s", ["sc"]⟩
        false ⟨"n"⟩).1.token
       = (⟨some "t", some "r", "u", "i", "s", ["sc"]⟩ : TokenAuth).token) :=
  ⟨rfl, C3_valid_no_refresh ⟨some "t", some "r", "u", "i", "s", ["sc"]⟩ false ⟨"n"⟩ rfl⟩

/-- C4: for a token record with a valid (present, non-empty) refresh token
and an expired access token, `authenticate_with_token` returns a handle
whose access token is the freshly issued one (differing from the input
access token whenever the endpoint issues a genuinely new token), while
refresh_token, token_uri, client_id, client_secret and scopes are unchanged
from the input record. -/
theorem C4_refresh_frame (token : TokenAuth) (expired : Bool)
    (resp : RefreshResponse)
    (hexp : expired = true)
    (hrt : truthy token.refresh_token = true)
    (hfresh : some resp.access_token ≠ token.token) :
    (authenticate_with_token token expired resp).1.token ≠ token.token ∧
    (authenticate_with_token token expired resp).1.token = some resp.access_token ∧
    (authenticate_with_token token expired resp).1.refresh_token = token.refresh_token ∧
    (authenticate_with_token token expired resp).1.token_uri = token.token_uri ∧
    (authenticate_with_token token expired resp).1.client_id = token.client_id ∧
    (authenticate_with_token token expired resp).1.client_secret = token.client_secret ∧
    (authenticate_with_token token expired resp).1.scopes = token.scopes := by
  subst hexp
  simp [authenticate_with_token, Credentials.from_authorized_user_info,
        Credentials.valid, Credentials.refresh, hrt, hfresh]

theorem C4_refresh_frame_witness :
    ((true : Bool) = true ∧
     truthy (⟨some "old", some "rt", "u", "i", "s", ["sc"]⟩ : TokenAuth).refresh_token = true ∧
     some "new" ≠ (⟨some "old", some "rt", "u", "i", "s", ["sc"]⟩ : TokenAuth).token) ∧
    ((authenticate_with_token ⟨some "old", some "rt", "u", "i", "s", ["sc"]⟩
        true ⟨"new"⟩).1.token
       ≠ (⟨some "old", some "rt", "u", "i", "s", ["sc"]⟩ : TokenAuth).token ∧
     (authenticate_with_token ⟨some "old", some "rt", "u", "i", "s", ["sc"]⟩
        true ⟨"new"⟩).1.token = some "new" ∧
     (authenticate_with_token ⟨some "old", some "rt", "u", "i", "s", ["sc"]⟩
        true ⟨"new"⟩).1.refresh_token
       = (⟨some "old", some "rt", "u", "i", "s", ["sc"]⟩ : TokenAuth).refresh_token ∧
     (authenticate_with_token ⟨some "old", some "rt", "u", "i", "s", ["sc"]⟩
        true ⟨"new"⟩).1.token_uri
       = (⟨some "old", some "rt", "u", "i", "s", ["sc"]⟩ : TokenAuth).token_uri ∧
     (authenticate_with_token ⟨some "old", some "rt", "u", "i", "s", ["sc"]⟩
        true ⟨"new"⟩).1.client_id
       = (⟨some "old", some "rt", "u", "i", "s", ["sc"]⟩ : TokenAuth).client_id ∧
     (authenticate_with_token ⟨some "old", some "rt", "u", "i", "s", ["sc"]⟩
        true ⟨"new"⟩).1.client_secret
       = (⟨some "old", some "rt", "u", "i", "s", ["sc"]⟩ : TokenAuth).client_secret ∧
     (authenticate_with_token ⟨some "old", some "rt", "u", "i", "s", ["sc"]⟩
        true ⟨"new"⟩).1.scopes
       = (⟨some "old", some "rt", "u", "i", "s", ["sc"]⟩ : TokenAuth).scopes) :=
  ⟨⟨rfl, rfl, by decide⟩,
   C4_refresh_frame ⟨some "old", some "rt", "u", "i", "s", ["sc"]⟩ true ⟨"new"⟩
     rfl rfl (by decide)⟩

/-- C5: for every file path, token record and folder id, the RAW upload
issues a create-file request whose metadata name is the base name of the
file path, whose parents are the one-element list [folder_id], and which
sets no mimeType. -/
theorem C5_raw_metadata (file_path : String) (token : TokenAuth)
    (folder_id : String) (expired : Bool) (resp : RefreshResponse)
    (service : DriveService) :
    (upload_file_to_drive file_path token folder_id expired resp service).2
      = [UploadEvent.authenticate token,
         UploadEvent.createFile (authenticate_with_token token expired resp).1
           (upload_file_to_drive_request file_path folder_id)] ∧
    (upload_file_to_drive_request file_path folder_id).body.name = basename file_path ∧
    (upload_file_to_drive_request file_path folder_id).body.parents = [folder_id] ∧
    (upload_file_to_drive_request file_path folder_id).body.mimeType = none :=
  ⟨rfl, rfl, rfl, rfl⟩

/-- C6: both uploads declare the media body as resumable, request only the
identifier field of the response, and return exactly the identifier field of
the service's response. -/
theorem C6_resumable_fields_id (file_path : String) (token : TokenAuth)
    (folder_id : String) (expired : Bool) (resp : RefreshResponse)
    (service : DriveService) :
    ((upload_file_to_drive_request file_path folder_id).media_body.resumable = true ∧
     (upload_file_to_drive_request file_path folder_id).fields = "id" ∧
     (upload_file_to_drive file_path token folder_id expired resp service).1
       = service.create_response_id (upload_file_to_drive_request file_path folder_id)) ∧
    ((upload_file_to_drive_as_google_sheet_request file_path folder_id).media_body.resumable = true ∧
     (upload_file_to_drive_as_google_sheet_request file_path folder_id).fields = "id" ∧
     (upload_file_to_drive_as_google_sheet file_path token folder_id expired resp service).1
       = service.create_response_id
           (upload_file_to_drive_as_google_sheet_request file_path folder_id)) :=
  ⟨⟨rfl, rfl, rfl⟩, ⟨rfl, rfl, rfl⟩⟩

/-- C7: a successful run of `get_token_auth` (the consent flow issued
non-empty tokens) yields a token record holding those non-empty tokens, the
fixed single-element full-access scope list, and the client identity copied
through unchanged. -/
theorem C7_token_record (client_id client_secret : String) (flow : FlowResult)
    (h1 : flow.token ≠ "") (h2 : flow.refresh_token ≠ "") :
    (get_token_auth client_id client_secret flow).token = some flow.token ∧
    (get_token_auth client_id client_secret flow).token ≠ some "" ∧
    (get_token_auth client_id client_secret flow).token ≠ none ∧
    (get_token_auth client_id client_secret flow).refresh_token = some flow.refresh_token ∧
    (get_token_auth client_id client_secret flow).refresh_token ≠ some "" ∧
    (get_token_auth client_id client_secret flow).refresh_token ≠ none ∧
    (get_token_auth client_id client_secret flow).scopes
      = ["https://www.googleapis.com/auth/drive"] ∧
    (get_token_auth client_id client_secret flow).client_id = client_id ∧
    (get_token_auth client_id client_secret flow).client_secret = client_secret := by
  refine ⟨rfl, ?_, ?_, rfl, ?_, ?_, rfl, rfl, rfl⟩ <;>
    simp [get_token_auth, generate_tokens, h1, h2]

theorem C7_token_record_witness :
    ((⟨"a", "r"⟩ : FlowResult).token ≠ "" ∧
     (⟨"a", "r"⟩ : FlowResult).refresh_token ≠ "") ∧
    ((get_token_auth "cid" "cs" ⟨"a", "r"⟩).token = some (⟨"a", "r"⟩ : FlowResult).token ∧
     (get_token_auth "cid" "cs" ⟨"a", "r"⟩).token ≠ some "" ∧
     (get_token_auth "cid" "cs" ⟨"a", "r"⟩).token ≠ none ∧
     (get_token_auth "cid" "cs" ⟨"a", "r"⟩).refresh_token
       = some (⟨"a", "r"⟩ : FlowResult).refresh_token ∧
     (get_token_auth "cid" "cs" ⟨"a", "r"⟩).refresh_token ≠ some "" ∧
     (get_token_auth "cid" "cs" ⟨"a", "r"⟩).refresh_token ≠ none ∧
     (get_token_auth "cid" "cs" ⟨"a", "r"⟩).scopes
       = ["https://www.googleapis.com/auth/drive"] ∧
     (get_token_auth "cid" "cs" ⟨"a", "r"⟩).client_id = "cid" ∧
     (get_token_auth "cid" "cs" ⟨"a", "r"⟩).client_secret = "cs") :=
  ⟨⟨by decide, by decide⟩,
   C7_token_record "cid" "cs" ⟨"a", "r"⟩ (by decide) (by decide)⟩

/-- C8: in both upload functions the credential materializer is applied to
the supplied token record before the create-file request is issued: every
create-file event in the trace is preceded by an authenticate event, and the
create-file event carries exactly the credentials materialized from the
token record. -/
theorem C8_auth_before_create (file_path : String) (token : TokenAuth)
    (folder_id : String) (expired : Bool) (resp : RefreshResponse)
    (service : DriveService) :
    create_preceded_by_auth false
      (upload_file_to_drive file_path token folder_id expired resp service).2 = true ∧
    (upload_file_to_drive file_path token folder_id expired resp service).2
      = [UploadEvent.authenticate token,
         UploadEvent.createFile (authenticate_with_token token expired resp).1
           (upload_file_to_drive_request file_path folder_id)] ∧
    create_preceded_by_auth false
      (upload_file_to_drive_as_google_sheet file_path token folder_id expired
        resp service).2 = true ∧
    (upload_file_to_drive_as_google_sheet file_path token folder_id expired
        resp service).2
      = [UploadEvent.authenticate token,
         UploadEvent.createFile (authenticate_with_token token expired resp).1
           (upload_file_to_drive_as_google_sheet_request file_path folder_id)] :=
  ⟨rfl, rfl, rfl, rfl⟩

/-- C9: when the handle built from the token record is invalid but either
not expired or lacking a refresh token, `authenticate_with_token` performs
no refresh call and returns the still-invalid handle unchanged. -/
theorem C9_invalid_no_refresh (token : TokenAuth) (expired : Bool)
    (resp : RefreshResponse)
    (_hinvalid : (Credentials.from_authorized_user_info token expired).valid = false)
    (hcase : expired = false ∨ token.refresh_token = none) :
    (authenticate_with_token token expired resp).1
      = Credentials.from_authorized_user_info token expired ∧
    (authenticate_with_token token expired resp).2 = [] := by
  rcases hcase with h | h <;>
    simp [authenticate_with_token, Credentials.from_authorized_user_info,
          truthy, h]

theorem C9_invalid_no_refresh_witness :
    ((Credentials.from_authorized_user_info
        ⟨none, some "rt", "u", "i", "s", ["sc"]⟩ false).valid = false ∧
     ((false : Bool) = false ∨
      (⟨none, some "rt", "u", "i", "s", ["sc"]⟩ : TokenAuth).refresh_token = none)) ∧
    ((authenticate_with_token ⟨none, some "rt", "u", "i", "s", ["sc"]⟩
        false ⟨"n"⟩).1
       = Credentials.from_authorized_user_info
           ⟨none, some "rt", "u", "i", "s", ["sc"]⟩ false ∧
     (authenticate_with_token ⟨none, some "rt", "u", "i", "s", ["sc"]⟩
        false ⟨"n"⟩).2 = []) :=
  ⟨⟨rfl, Or.inl rfl⟩,
   C9_invalid_no_refresh ⟨none, some "rt", "u", "i", "s", ["sc"]⟩ false ⟨"n"⟩
     rfl (Or.inl rfl)⟩

/-- C10: when the service's response lacks the identifier field, both upload
functions raise no error and return the absent-value marker. -/
theorem C10_missing_id (file_path : String) (token : TokenAuth)
    (folder_id : String) (expired : Bool) (resp : RefreshResponse)
    (service : DriveService)
    (hraw : service.create_response_id
        (upload_file_to_drive_request file_path folder_id) = none)
    (hsheet : service.create_response_id
        (upload_file_to_drive_as_google_sheet_request file_path folder_id) = none) :
    (upload_file_to_drive file_path token folder_id expired resp service).1 = none ∧
    (upload_file_to_drive_as_google_sheet file_path token folder_id expired
        resp service).1 = none :=
  ⟨hraw, hsheet⟩

theorem C10_missing_id_witness :
    ((DriveService.mk fun _ => none).create_response_id
        (upload_file_to_drive_request "/tmp/a.xlsx" "F") = none ∧
     (DriveService.mk fun _ => none).create_response_id
        (upload_file_to_drive_as_google_sheet_request "/tmp/a.xlsx" "F") = none) ∧
    ((upload_file_to_drive "/tmp/a.xlsx" ⟨some "t", some "r", "u", "i", "s", ["sc"]⟩
        "F" false ⟨"n"⟩ (DriveService.mk fun _ => none)).1 = none ∧
     (upload_file_to_drive_as_google_sheet "/tmp/a.xlsx"
        ⟨some "t", some "r", "u", "i", "s", ["sc"]⟩
        "F" false ⟨"n"⟩ (DriveService.mk fun _ => none)).1 = none) :=
  ⟨⟨rfl, rfl⟩,
   C10_missing_id "/tmp/a.xlsx" ⟨some "t", some "r", "u", "i", "s", ["sc"]⟩
     "F" false ⟨"n"⟩ (DriveService.mk fun _ => none) rfl rfl⟩

end UploadFilesToDrive
